import Mathlib

/-!
Verification of the provider-dispatch and credential-store core of a
terminal AI chat client (`ai_terminal_tool.py`).

The embedding models:
* JSON values (the configuration file's contents and HTTP response bodies);
* Python exceptions as data (`PyExc`), with fallible operations returning
  `Except PyExc α`;
* the configuration file on disk as an abstract `FileState` (missing,
  unreadable, syntactically invalid JSON, undecodable bytes, or a parsed
  JSON value — the Python `json.dump`/`json.load` pair is modelled as
  storing the JSON value itself);
* the transport layer as an `Env` of adapter-call oracles, so theorems
  quantify over every possible adapter behaviour, and each dispatch
  returns its result together with the number of network invocations made.
-/

set_option autoImplicit false

/-- JSON values, the data manipulated by `json.load`/`json.dump` and by
`response.json()`. Objects keep insertion order, as Python dicts do. -/
inductive Json where
  | null : Json
  | bool (b : Bool) : Json
  | num (n : Int) : Json
  | str (s : String) : Json
  | arr (elems : List Json) : Json
  | obj (entries : List (String × Json)) : Json

/-- A Python exception, as data: the class name and the message
(`str(e)` is the message). -/
structure PyExc where
  kind : String
  msg : String
deriving Repr, DecidableEq

/-- Python type name of a JSON value, used in exception messages. -/
def Json.pyType : Json → String
  | .null => "NoneType"
  | .bool _ => "bool"
  | .num _ => "int"
  | .str _ => "str"
  | .arr _ => "list"
  | .obj _ => "dict"

/-- The `AttributeError` raised by `x.get` when `x` is not a dict. -/
def attrErrGet (j : Json) : PyExc :=
  ⟨"AttributeError", "'" ++ j.pyType ++ "' object has no attribute 'get'"⟩

/-- The `TypeError` raised by item assignment / subscripting on an
unsuitable value. -/
def typeErr (j : Json) : PyExc :=
  ⟨"TypeError", "'" ++ j.pyType ++ "' object does not support this operation"⟩

/-- Python truthiness of a JSON value (`if not api_key` tests this). -/
def Json.truthy : Json → Bool
  | .null => false
  | .bool b => b
  | .num n => n != 0
  | .str s => s != ""
  | .arr elems => !elems.isEmpty
  | .obj entries => !entries.isEmpty

/-- Truthiness of `dict.get`'s result, where absence (`None`) is falsy. -/
def pyTruthyOpt : Option Json → Bool
  | none => false
  | some v => v.truthy

/-- Python `str.lower()` (faithful on the ASCII identifiers this program
uses). -/
def pyLower (s : String) : String := String.mk (s.data.map Char.toLower)

/-- Python dict assignment `d[k] = v` on an association list: overwrite in
place if the key is present, append otherwise (insertion order preserved,
as for Python dicts). -/
def objInsert (entries : List (String × Json)) (k : String) (v : Json) :
    List (String × Json) :=
  match entries with
  | [] => [(k, v)]
  | (k', v') :: rest =>
      if k' = k then (k', v) :: rest else (k', v') :: objInsert rest k v

/-- `d.get(key, default)` — raises `AttributeError` unless `d` is a dict. -/
def dictGetD (j : Json) (key : String) (default : Json) : Except PyExc Json :=
  match j with
  | .obj entries => .ok ((entries.lookup key).getD default)
  | _ => .error (attrErrGet j)

/-- `d.get(key)` — returns `None` (here `none`) when absent; raises
`AttributeError` unless `d` is a dict. -/
def dictGet (j : Json) (key : String) : Except PyExc (Option Json) :=
  match j with
  | .obj entries => .ok (entries.lookup key)
  | _ => .error (attrErrGet j)

/-- `x[key]` for a string key: dict lookup (`KeyError` when absent),
`TypeError` on any non-dict. -/
def pyGetItemStr (j : Json) (key : String) : Except PyExc Json :=
  match j with
  | .obj entries =>
      match entries.lookup key with
      | some v => .ok v
      | none => .error ⟨"KeyError", key⟩
  | _ => .error (typeErr j)

/-- `x[i]` for a nonnegative integer index: list/str indexing
(`IndexError` out of range), `KeyError` on a dict, `TypeError` otherwise. -/
def pyGetItemNat (j : Json) (i : Nat) : Except PyExc Json :=
  match j with
  | .arr elems =>
      match elems[i]? with
      | some v => .ok v
      | none => .error ⟨"IndexError", "list index out of range"⟩
  | .obj _ => .error ⟨"KeyError", toString i⟩
  | .str s =>
      match s.toList[i]? with
      | some c => .ok (.str (String.mk [c]))
      | none => .error ⟨"IndexError", "string index out of range"⟩
  | _ => .error (typeErr j)

/-- State of the configuration file on disk. `json.dump` followed by
`json.load` is modelled as the identity on the stored JSON value.
`unreadable` is a file whose open/read raises `IOError`; `invalid` is a
file that decodes to text which is not valid JSON (`json.JSONDecodeError`);
`undecodable` is an existing, readable file whose bytes are not decodable
text, where `json.load` raises `UnicodeDecodeError` — an exception the
source's `except (json.JSONDecodeError, IOError)` does not catch. -/
inductive FileState where
  | missing : FileState
  | unreadable : FileState
  | invalid : FileState
  | undecodable : FileState
  | valid (v : Json) : FileState

/-- The `UnicodeDecodeError` raised by `json.load` on undecodable bytes. -/
def unicodeDecodeErr : PyExc :=
  ⟨"UnicodeDecodeError",
   "'utf-8' codec can't decode byte 0xff in position 0: invalid start byte"⟩

namespace ConfigManager

/-- `ConfigManager.load_config`: parse the file; on a missing file, an
`IOError`, or a `json.JSONDecodeError`, return the empty dict `{}`; a
`UnicodeDecodeError` from undecodable bytes is not caught and
propagates. -/
def load_config (fs : FileState) : Except PyExc Json :=
  match fs with
  | .missing => .ok (.obj [])
  | .unreadable => .ok (.obj [])
  | .invalid => .ok (.obj [])
  | .undecodable => .error unicodeDecodeErr
  | .valid v => .ok v

end ConfigManager

/-- The in-memory state of a `ConfigManager` (its loaded `config` dict;
the config-file path is fixed). -/
structure ConfigManager where
  config : Json

namespace ConfigManager

/-- `ConfigManager.__init__`: create the config directory (not the file)
and load the configuration; on success returns the store and the
(untouched) file, and an exception escaping `load_config` escapes the
constructor. -/
def init (fs : FileState) : Except PyExc (ConfigManager × FileState) :=
  match load_config fs with
  | .error e => .error e
  | .ok c => .ok (⟨c⟩, fs)

/-- `ConfigManager.save_config`: write the whole config to the file;
an `IOError` (modelled by `writeOk = false`) is swallowed, leaving the
file as it was. -/
def save_config (config : Json) (fs : FileState) (writeOk : Bool) : FileState :=
  if writeOk then .valid config else fs

/-- `ConfigManager.get_api_key`:
`self.config.get('api_keys', {}).get(provider)`. -/
def get_api_key (cm : ConfigManager) (provider : String) :
    Except PyExc (Option Json) :=
  match dictGetD cm.config "api_keys" (.obj []) with
  | .error e => .error e
  | .ok apiKeys => dictGet apiKeys provider

/-- `ConfigManager.set_api_key`: ensure `config['api_keys']` exists, set
`config['api_keys'][provider] = api_key`, then `save_config`. Raises when
the loaded config or its `api_keys` entry is not a dict. -/
def set_api_key (cm : ConfigManager) (fs : FileState)
    (provider api_key : String) (writeOk : Bool) :
    Except PyExc (ConfigManager × FileState) :=
  match cm.config with
  | .obj entries =>
      match entries.lookup "api_keys" with
      | none =>
          let newCfg : Json :=
            .obj (objInsert entries "api_keys" (.obj [(provider, .str api_key)]))
          .ok (⟨newCfg⟩, save_config newCfg fs writeOk)
      | some (.obj akEntries) =>
          let newCfg : Json :=
            .obj (objInsert entries "api_keys"
              (.obj (objInsert akEntries provider (.str api_key))))
          .ok (⟨newCfg⟩, save_config newCfg fs writeOk)
      | some other => .error (typeErr other)
  | other => .error (typeErr other)

end ConfigManager

/-- `AIProvider` dataclass: provider configuration entry. -/
structure AIProvider where
  name : String
  models : List String
  requires_api_key : Bool := true
  base_url : Option String := none

/-- The provider registry built in `AIClient.__init__`. -/
def defaultProviders : List (String × AIProvider) :=
  [("OpenAI", ⟨"OpenAI", ["gpt-4o", "gpt-4o-mini", "gpt-3.5-turbo"], true, none⟩),
   ("Claude", ⟨"Claude", ["claude-3-5-sonnet-20241022", "claude-3-5-haiku-20241022",
      "claude-3-opus-20240229"], true, none⟩),
   ("Gemini", ⟨"Gemini", ["gemini-2.0-flash-exp", "gemini-1.5-pro",
      "gemini-1.5-flash"], true, none⟩),
   ("Perplexity", ⟨"Perplexity", ["llama-3.1-sonar-small-128k-online",
      "llama-3.1-sonar-large-128k-online"], true,
      some "https://api.perplexity.ai"⟩)]

/-- An HTTP response as seen by the Perplexity adapter: status code, raw
body text, and the outcome of `response.json()` (which may raise). -/
structure HttpResponse where
  status_code : Nat
  text : String
  jsonBody : Except PyExc Json

/-- The runtime environment of the dispatch layer: which optional client
libraries are importable, and the behaviour of each provider's underlying
network call, as an arbitrary oracle. A call either raises (`.error`) or
returns: for the three SDK-backed adapters the returned value is the
already-extracted content (any failure inside the SDK call or the
extraction is an exception); for Perplexity it is the raw HTTP response,
whose extraction the adapter performs itself. -/
structure Env where
  openaiLib : Bool
  anthropicLib : Bool
  genaiLib : Bool
  requestsLib : Bool
  openaiCall : Json → String → String → Except PyExc Json
  claudeCall : Json → String → String → Except PyExc Json
  geminiCall : Json → String → String → Except PyExc Json
  perplexityPost : Json → String → String → Except PyExc HttpResponse

/-- Extraction path of the Perplexity adapter:
`response.json()['choices'][0]['message']['content']`. -/
def extractChoicesContent (j : Json) : Except PyExc Json :=
  match pyGetItemStr j "choices" with
  | .error e => .error e
  | .ok choices =>
      match pyGetItemNat choices 0 with
      | .error e => .error e
      | .ok first =>
          match pyGetItemStr first "message" with
          | .error e => .error e
          | .ok msgObj => pyGetItemStr msgObj "content"

/-- The `AIClient`: the unified dispatch client, holding the credential
store and the provider registry. -/
structure AIClient where
  config_manager : ConfigManager
  providers : List (String × AIProvider) := defaultProviders

namespace AIClient

/-- `AIClient._openai_request`: library check, then one network call whose
outcome (content or exception) the environment determines. The second
component counts network invocations. -/
def openai_request (env : Env) (api_key : Json) (model message : String) :
    Except PyExc Json × Nat :=
  if env.openaiLib then (env.openaiCall api_key model message, 1)
  else (.ok (.str "Error: OpenAI library not installed. Run: pip install openai"), 0)

/-- `AIClient._claude_request`: library check, then one network call. -/
def claude_request (env : Env) (api_key : Json) (model message : String) :
    Except PyExc Json × Nat :=
  if env.anthropicLib then (env.claudeCall api_key model message, 1)
  else (.ok (.str "Error: Anthropic library not installed. Run: pip install anthropic"), 0)

/-- `AIClient._gemini_request`: library check, then one network call. -/
def gemini_request (env : Env) (api_key : Json) (model message : String) :
    Except PyExc Json × Nat :=
  if env.genaiLib then (env.geminiCall api_key model message, 1)
  else (.ok (.str "Error: Google AI library not installed. Run: pip install google-generativeai"), 0)

/-- `AIClient._perplexity_request`: library check, `requests.post`, then
on status 200 extract `choices[0].message.content` from the JSON body,
otherwise return `f"Error: \x7bstatus_code\x7d - \x7btext\x7d"`. -/
def perplexity_request (env : Env) (api_key : Json) (model message : String) :
    Except PyExc Json × Nat :=
  if env.requestsLib then
    match env.perplexityPost api_key model message with
    | .error e => (.error e, 1)
    | .ok resp =>
        if resp.status_code = 200 then
          (match resp.jsonBody with
           | .error e => .error e
           | .ok body => extractChoicesContent body, 1)
        else
          (.ok (.str ("Error: " ++ toString resp.status_code ++ " - " ++ resp.text)), 1)
  else (.ok (.str "Error: Requests library not installed. Run: pip install requests"), 0)

/-- The `try/except Exception` wrapper of `get_response`: a value passes
through, an exception is rendered as `"Error: " ++ str(e)`; the network
invocation count is kept either way. -/
def tryExceptStep (attempt : Except PyExc Json × Nat) :
    Except PyExc (Json × Nat) :=
  match attempt with
  | (.ok v, n) => .ok (v, n)
  | (.error e, n) => .ok (.str ("Error: " ++ e.msg), n)

/-- `AIClient.get_response`: look up the secret under the lowercased
provider id (outside the `try`, so a malformed config propagates an
exception), return the missing-key error when it is absent or falsy,
otherwise branch on the exact provider name; any exception from an
adapter is caught and rendered as `"Error: " ++ str(e)`. Returns the
result together with the number of network invocations made. -/
def get_response (client : AIClient) (env : Env)
    (provider model message : String) : Except PyExc (Json × Nat) :=
  match client.config_manager.get_api_key (pyLower provider) with
  | .error e => .error e
  | .ok keyOpt =>
      if pyTruthyOpt keyOpt then
        let api_key := keyOpt.getD .null
        tryExceptStep
          (if provider = "OpenAI" then openai_request env api_key model message
           else if provider = "Claude" then claude_request env api_key model message
           else if provider = "Gemini" then gemini_request env api_key model message
           else if provider = "Perplexity" then perplexity_request env api_key model message
           else (.ok (.str ("Error: Unsupported provider " ++ provider)), 0))
      else
        .ok (.str ("Error: No API key configured for " ++ provider), 0)

end AIClient

/-- Looking up the just-assigned key after a Python dict assignment yields
the assigned value. -/
theorem lookup_objInsert_self (l : List (String × Json)) (k : String) (v : Json) :
    (objInsert l k v).lookup k = some v := by
  induction l with
  | nil => simp [objInsert, List.lookup]
  | cons hd tl ih =>
      obtain ⟨k', v'⟩ := hd
      by_cases h : k' = k
      · subst h
        simp [objInsert, List.lookup]
      · have hb : (k == k') = false := beq_eq_false_iff_ne.mpr (Ne.symm h)
        simp [objInsert, h, List.lookup, hb, ih]

/-- A Python dict assignment leaves every other key's binding unchanged. -/
theorem lookup_objInsert_ne (l : List (String × Json)) (k q : String) (v : Json)
    (h : q ≠ k) : (objInsert l k v).lookup q = l.lookup q := by
  have hb : (q == k) = false := beq_eq_false_iff_ne.mpr h
  induction l with
  | nil => simp [objInsert, List.lookup, hb]
  | cons hd tl ih =>
      obtain ⟨k', v'⟩ := hd
      by_cases h' : k' = k
      · subst h'
        simp [objInsert, List.lookup, hb]
      · simp [objInsert, h', List.lookup, ih]

/-- A concrete environment for witnesses and counterexamples: all optional
libraries importable, every network call returning a fixed stub success. -/
def env0 : Env :=
  ⟨true, true, true, true,
   fun _ _ _ => .ok (.str "stub"),
   fun _ _ _ => .ok (.str "stub"),
   fun _ _ _ => .ok (.str "stub"),
   fun _ _ _ => .ok ⟨200, "",
     .ok (.obj [("choices",
       .arr [.obj [("message", .obj [("content", .str "stub")])]])])⟩⟩

/-- C1, counterexample: with no secret configured, dispatching to the
unregistered provider id `"DoesNotExist"` returns the missing-credential
error, not the unsupported-provider (UnknownProvider) error — so the
claimed check order (provider resolution before credential) is false. -/
theorem C1_counterexample :
    AIClient.get_response ⟨⟨.obj []⟩, defaultProviders⟩ env0
        "DoesNotExist" "gpt-4o" "hi"
      = .ok (.str "Error: No API key configured for DoesNotExist", 0)
    ∧ ("Error: No API key configured for DoesNotExist" : String)
      ≠ "Error: Unsupported provider DoesNotExist" :=
  ⟨rfl, by decide⟩

/-- C1, amended: `get_response` checks the credential FIRST: for an
unregistered provider id, if the lowercased-id credential lookup succeeds,
the result is the unsupported-provider error when the stored secret is
truthy and the missing-credential error otherwise, with zero network
invocations in both cases. -/
theorem C1_credential_checked_before_provider (cm : ConfigManager)
    (provs : List (String × AIProvider)) (env : Env) (p m msg : String)
    (keyOpt : Option Json)
    (h1 : p ≠ "OpenAI") (h2 : p ≠ "Claude") (h3 : p ≠ "Gemini")
    (h4 : p ≠ "Perplexity")
    (hk : cm.get_api_key (pyLower p) = .ok keyOpt) :
    AIClient.get_response ⟨cm, provs⟩ env p m msg =
      if pyTruthyOpt keyOpt then
        .ok (.str ("Error: Unsupported provider " ++ p), 0)
      else
        .ok (.str ("Error: No API key configured for " ++ p), 0) := by
  cases hpt : pyTruthyOpt keyOpt <;>
    simp [AIClient.get_response, AIClient.tryExceptStep, hk, h1, h2, h3, h4, hpt]

/-- C1, witness for the amended theorem: an unregistered id with a truthy
secret stored under its lowercase form yields the unsupported-provider
error with zero network calls. -/
theorem C1_credential_checked_before_provider_witness :
    AIClient.get_response
        ⟨⟨.obj [("api_keys", .obj [("doesnotexist", .str "k")])]⟩,
          defaultProviders⟩ env0 "DoesNotExist" "gpt-4o" "hi"
      = .ok (.str "Error: Unsupported provider DoesNotExist", 0) := by
  have h := C1_credential_checked_before_provider
    ⟨.obj [("api_keys", .obj [("doesnotexist", .str "k")])]⟩
    defaultProviders env0 "DoesNotExist" "gpt-4o" "hi" (some (.str "k"))
    (by decide) (by decide) (by decide) (by decide) rfl
  simpa [pyTruthyOpt, Json.truthy] using h

/-- C2: whenever the credential store holds no secret (absent or the empty
string) under the lowercased provider id, `get_response` returns the
missing-credential error with zero network invocations, for every
provider id, model, message, registry and adapter behaviour. -/
theorem C2_missing_secret_no_network (cm : ConfigManager)
    (provs : List (String × AIProvider)) (env : Env) (p m msg : String)
    (h : cm.get_api_key (pyLower p) = .ok none ∨
         cm.get_api_key (pyLower p) = .ok (some (.str ""))) :
    AIClient.get_response ⟨cm, provs⟩ env p m msg =
      .ok (.str ("Error: No API key configured for " ++ p), 0) := by
  rcases h with h | h <;>
    simp [AIClient.get_response, h, pyTruthyOpt, Json.truthy]

/-- C2, witness: the empty store and the `OpenAI` provider. -/
theorem C2_missing_secret_no_network_witness :
    AIClient.get_response ⟨⟨.obj []⟩, defaultProviders⟩ env0
        "OpenAI" "gpt-4o" "hi"
      = .ok (.str "Error: No API key configured for OpenAI", 0) :=
  C2_missing_secret_no_network ⟨.obj []⟩ defaultProviders env0
    "OpenAI" "gpt-4o" "hi" (Or.inl rfl)

/-- The final `try/except` of `get_response` always produces a value,
whatever the attempted adapter call did. -/
theorem tryExcept_ok (attempt : Except PyExc Json × Nat) :
    ∃ r, AIClient.tryExceptStep attempt = .ok r := by
  rcases attempt with ⟨e | v, n⟩ <;> exact ⟨_, rfl⟩

/-- C3, counterexample: with a configuration loaded from a file holding
valid JSON that is not an object (here `[]`), the credential lookup sits
outside the `try` block and its `AttributeError` propagates out of
`get_response` — an exception crosses the dispatch boundary. -/
theorem C3_counterexample :
    AIClient.get_response ⟨⟨.arr []⟩, defaultProviders⟩ env0
        "OpenAI" "gpt-4o" "hi"
      = .error ⟨"AttributeError", "'list' object has no attribute 'get'"⟩ :=
  rfl

/-- C3, amended: for every client whose loaded configuration is a JSON
object whose `api_keys` entry (when present) is itself an object,
`get_response` returns a value — never an exception — for every provider
id, model, message and adapter behaviour (exceptions thrown, libraries
missing, malformed responses included). -/
theorem C3_total_on_wellformed_config (entries : List (String × Json))
    (provs : List (String × AIProvider)) (env : Env) (p m msg : String)
    (h : entries.lookup "api_keys" = none ∨
         ∃ ak, entries.lookup "api_keys" = some (.obj ak)) :
    ∃ r, AIClient.get_response ⟨⟨.obj entries⟩, provs⟩ env p m msg = .ok r := by
  have hg : ∃ keyOpt,
      ConfigManager.get_api_key ⟨.obj entries⟩ (pyLower p) = .ok keyOpt := by
    rcases h with h | ⟨ak, h⟩ <;>
      simp [ConfigManager.get_api_key, dictGetD, dictGet, h]
  obtain ⟨keyOpt, hg⟩ := hg
  cases hpt : pyTruthyOpt keyOpt
  · exact ⟨(.str ("Error: No API key configured for " ++ p), 0),
      by simp [AIClient.get_response, hg, hpt]⟩
  · simp only [AIClient.get_response, hg, hpt, if_true]
    exact tryExcept_ok _

/-- C3, witness for the amended theorem: the empty configuration object. -/
theorem C3_total_on_wellformed_config_witness :
    ∃ r, AIClient.get_response ⟨⟨.obj []⟩, defaultProviders⟩ env0
        "Gemini" "gemini-1.5-pro" "hi" = .ok r :=
  C3_total_on_wellformed_config [] defaultProviders env0
    "Gemini" "gemini-1.5-pro" "hi" (Or.inl rfl)

/-- C4, counterexample: at the `ConfigManager` interface itself,
`set_api_key("OpenAI", "x")` stores under the verbatim key, and
`get_api_key("openai")` then returns `None`, not `"x"` — the store does
not lowercase on write nor look up case-insensitively. -/
theorem C4_counterexample :
    ConfigManager.set_api_key ⟨.obj []⟩ .missing "OpenAI" "x" true
      = .ok (⟨.obj [("api_keys", .obj [("OpenAI", .str "x")])]⟩,
             .valid (.obj [("api_keys", .obj [("OpenAI", .str "x")])]))
    ∧ ConfigManager.get_api_key
        ⟨.obj [("api_keys", .obj [("OpenAI", .str "x")])]⟩ "openai"
      = .ok none
    ∧ (none : Option Json) ≠ some (.str "x") :=
  ⟨rfl, rfl, by simp⟩

/-- C4, amended: the credential store is exact-key (case-sensitive) at its
own interface: after a successful `set_api_key(p, s)`, `get_api_key(p)`
returns `s`, and `get_api_key(q)` for any `q ≠ p` (in particular any
other casing of `p`) is unchanged; callers obtain case-insensitive
behaviour only by lowercasing ids before calling. -/
theorem C4_store_is_case_sensitive (entries : List (String × Json))
    (fs : FileState) (p s : String) (w : Bool)
    (cm' : ConfigManager) (fs' : FileState)
    (h : ConfigManager.set_api_key ⟨.obj entries⟩ fs p s w = .ok (cm', fs')) :
    cm'.get_api_key p = .ok (some (.str s))
    ∧ ∀ q, q ≠ p →
        cm'.get_api_key q = ConfigManager.get_api_key ⟨.obj entries⟩ q := by
  cases hak : entries.lookup "api_keys" with
  | none =>
      simp only [ConfigManager.set_api_key, hak, Except.ok.injEq, Prod.mk.injEq] at h
      obtain ⟨hcm, -⟩ := h
      subst hcm
      refine ⟨?_, ?_⟩
      · simp [ConfigManager.get_api_key, dictGetD, dictGet,
          lookup_objInsert_self, List.lookup]
      · intro q hq
        have hb : (q == p) = false := beq_eq_false_iff_ne.mpr hq
        simp [ConfigManager.get_api_key, dictGetD, dictGet,
          lookup_objInsert_self, List.lookup, hak, hb]
  | some akJson =>
      cases akJson with
      | obj akEntries =>
          simp only [ConfigManager.set_api_key, hak, Except.ok.injEq,
            Prod.mk.injEq] at h
          obtain ⟨hcm, -⟩ := h
          subst hcm
          refine ⟨?_, ?_⟩
          · simp [ConfigManager.get_api_key, dictGetD, dictGet,
              lookup_objInsert_self]
          · intro q hq
            simp [ConfigManager.get_api_key, dictGetD, dictGet,
              lookup_objInsert_self, lookup_objInsert_ne _ _ _ _ hq, hak]
      | null => simp [ConfigManager.set_api_key, hak] at h
      | bool b => simp [ConfigManager.set_api_key, hak] at h
      | num n => simp [ConfigManager.set_api_key, hak] at h
      | str s' => simp [ConfigManager.set_api_key, hak] at h
      | arr elems => simp [ConfigManager.set_api_key, hak] at h

/-- C4, witness for the amended theorem: storing then reading back the
same exact key. -/
theorem C4_store_is_case_sensitive_witness :
    ConfigManager.get_api_key
        ⟨.obj [("api_keys", .obj [("OpenAI", .str "x")])]⟩ "OpenAI"
      = .ok (some (.str "x")) :=
  (C4_store_is_case_sensitive [] .missing "OpenAI" "x" true _ _ rfl).1

/-- C5, counterexample: two configuration-corruption states defeat the
claim. A file of undecodable bytes makes `json.load` raise
`UnicodeDecodeError`, which `except (json.JSONDecodeError, IOError)` does
not catch, so construction itself fails; and a file holding valid JSON
that is not an object (here `[]`) is loaded as-is, after which
`get_api_key` raises instead of returning absent, so the store is not
functional. -/
theorem C5_counterexample :
    ConfigManager.init .undecodable = .error unicodeDecodeErr
    ∧ ConfigManager.init (.valid (.arr [])) = .ok (⟨.arr []⟩, .valid (.arr []))
    ∧ ConfigManager.get_api_key ⟨.arr []⟩ "openai"
      = .error ⟨"AttributeError", "'list' object has no attribute 'get'"⟩ :=
  ⟨rfl, rfl, rfl⟩

/-- C5, amended: for a configuration file that is missing, that raises
`IOError` on reading, or whose text is not valid JSON
(`json.JSONDecodeError`), construction succeeds with the empty
configuration and the store is functional: `get_api_key` returns absent
for every provider and `set_api_key` succeeds. Construction raises on a
file of undecodable bytes, and a file of valid JSON with the wrong shape
is loaded verbatim (see the counterexample). -/
theorem C5_fallback_on_unparseable_config (fs : FileState)
    (h : fs = .missing ∨ fs = .unreadable ∨ fs = .invalid)
    (p s : String) (w : Bool) :
    ConfigManager.init fs = .ok (⟨.obj []⟩, fs)
    ∧ ConfigManager.get_api_key ⟨.obj []⟩ p = .ok none
    ∧ ConfigManager.set_api_key ⟨.obj []⟩ fs p s w
      = .ok (⟨.obj [("api_keys", .obj [(p, .str s)])]⟩,
             ConfigManager.save_config (.obj [("api_keys", .obj [(p, .str s)])]) fs w) := by
  rcases h with h | h | h <;> subst h <;> exact ⟨rfl, rfl, rfl⟩

/-- C5, witness for the amended theorem: the invalid-JSON file state. -/
theorem C5_fallback_on_unparseable_config_witness :
    ConfigManager.init .invalid = .ok (⟨.obj []⟩, .invalid)
    ∧ ConfigManager.get_api_key ⟨.obj []⟩ "openai" = .ok none
    ∧ ConfigManager.set_api_key ⟨.obj []⟩ .invalid "openai" "x" true
      = .ok (⟨.obj [("api_keys", .obj [("openai", .str "x")])]⟩,
             .valid (.obj [("api_keys", .obj [("openai", .str "x")])])) := by
  have h := C5_fallback_on_unparseable_config .invalid (Or.inr (Or.inr rfl))
    "openai" "x" true
  simpa [ConfigManager.save_config] using h

/-- C6, counterexample: constructing the store with the configuration
file absent leaves the file absent — `__init__` creates only the
directory and never writes the file, so no file containing an empty
mapping is created on first run. -/
theorem C6_counterexample :
    ConfigManager.init .missing = .ok (⟨.obj []⟩, .missing)
    ∧ FileState.missing ≠ .valid (.obj []) :=
  ⟨rfl, fun h => nomatch h⟩

/-- C6, amended: construction never touches the configuration file
(whenever it succeeds, the file state is exactly the starting one); on a
first run the in-memory configuration is the empty mapping, and the file
is first created by the first `set_api_key`, which writes the full
mapping. -/
theorem C6_file_not_created_at_startup (fs : FileState)
    (cm' : ConfigManager) (fs' : FileState)
    (h : ConfigManager.init fs = .ok (cm', fs')) :
    fs' = fs
    ∧ ConfigManager.init .missing = .ok (⟨.obj []⟩, .missing)
    ∧ ∀ p s : String,
        ConfigManager.set_api_key ⟨.obj []⟩ .missing p s true
        = .ok (⟨.obj [("api_keys", .obj [(p, .str s)])]⟩,
               .valid (.obj [("api_keys", .obj [(p, .str s)])])) := by
  refine ⟨?_, rfl, fun _ _ => rfl⟩
  cases fs <;> simp_all [ConfigManager.init, ConfigManager.load_config]

/-- C6, witness for the amended theorem: first run with the file absent —
construction leaves it absent, and the first `set_api_key` writes it. -/
theorem C6_file_not_created_at_startup_witness :
    ConfigManager.init .missing = .ok (⟨.obj []⟩, .missing)
    ∧ ConfigManager.set_api_key ⟨.obj []⟩ .missing "openai" "x" true
      = .ok (⟨.obj [("api_keys", .obj [("openai", .str "x")])]⟩,
             .valid (.obj [("api_keys", .obj [("openai", .str "x")])])) :=
  ⟨(C6_file_not_created_at_startup .missing ⟨.obj []⟩ .missing rfl).2.1,
   (C6_file_not_created_at_startup .missing ⟨.obj []⟩ .missing rfl).2.2 "openai" "x"⟩

/-- C7: persistence round-trip — after a successful `set_api_key(p, s)`
(write succeeding), a fresh `ConfigManager` constructed over the
resulting file yields `get_api_key(p) = s`; and loading a previously
saved file and re-saving it without modification reproduces the same
stored value. -/
theorem C7_roundtrip (entries : List (String × Json)) (fs : FileState)
    (p s : String) (cm' : ConfigManager) (fs' : FileState)
    (h : ConfigManager.set_api_key ⟨.obj entries⟩ fs p s true = .ok (cm', fs')) :
    (∃ cm2 : ConfigManager,
        ConfigManager.init fs' = .ok (cm2, fs')
        ∧ cm2.get_api_key p = .ok (some (.str s)))
    ∧ ∀ v : Json, ConfigManager.init (.valid v) = .ok (⟨v⟩, .valid v)
        ∧ ∀ fs0 : FileState,
            ConfigManager.save_config v fs0 true = .valid v := by
  refine ⟨?_, fun v => ⟨rfl, fun fs0 => rfl⟩⟩
  cases hak : entries.lookup "api_keys" with
  | none =>
      simp only [ConfigManager.set_api_key, hak, ConfigManager.save_config,
        if_true, Except.ok.injEq, Prod.mk.injEq] at h
      obtain ⟨-, hfs⟩ := h
      subst hfs
      refine ⟨⟨.obj (objInsert entries "api_keys" (.obj [(p, .str s)]))⟩, rfl, ?_⟩
      simp [ConfigManager.get_api_key, dictGetD, dictGet,
        lookup_objInsert_self, List.lookup]
  | some akJson =>
      cases akJson with
      | obj akEntries =>
          simp only [ConfigManager.set_api_key, hak, ConfigManager.save_config,
            if_true, Except.ok.injEq, Prod.mk.injEq] at h
          obtain ⟨-, hfs⟩ := h
          subst hfs
          refine ⟨⟨.obj (objInsert entries "api_keys"
            (.obj (objInsert akEntries p (.str s))))⟩, rfl, ?_⟩
          simp [ConfigManager.get_api_key, dictGetD, dictGet,
            lookup_objInsert_self]
      | null => simp [ConfigManager.set_api_key, hak] at h
      | bool b => simp [ConfigManager.set_api_key, hak] at h
      | num n => simp [ConfigManager.set_api_key, hak] at h
      | str s' => simp [ConfigManager.set_api_key, hak] at h
      | arr elems => simp [ConfigManager.set_api_key, hak] at h

/-- C7, witness: set then reload on the empty store. -/
theorem C7_roundtrip_witness :
    ∃ cm2 : ConfigManager,
      ConfigManager.init
          (.valid (.obj [("api_keys", .obj [("perplexity", .str "k")])]))
        = .ok (cm2, .valid (.obj [("api_keys", .obj [("perplexity", .str "k")])]))
      ∧ cm2.get_api_key "perplexity" = .ok (some (.str "k")) :=
  (C7_roundtrip [] .missing "perplexity" "k" _ _ rfl).1

/-- A concrete environment whose Perplexity endpoint answers HTTP 429
with body `\x7b"error":"rate limited"\x7d`. -/
def env429 : Env :=
  ⟨true, true, true, true,
   fun _ _ _ => .ok (.str "stub"),
   fun _ _ _ => .ok (.str "stub"),
   fun _ _ _ => .ok (.str "stub"),
   fun _ _ _ => .ok ⟨429, "\x7b\"error\":\"rate limited\"\x7d",
     .ok (.obj [("error", .str "rate limited")])⟩⟩

/-- C8: the Perplexity adapter, as dispatched through `get_response` with
a configured secret and `requests` importable: an HTTP 200 response whose
body yields a string at `choices[0].message.content` produces exactly
that string; any non-200 status produces the error string carrying the
status code and the body text verbatim — one network invocation in both
cases. -/
theorem C8_perplexity_adapter (cm : ConfigManager)
    (provs : List (String × AIProvider)) (env : Env) (m msg sk : String)
    (resp : HttpResponse)
    (hk : cm.get_api_key (pyLower "Perplexity") = .ok (some (.str sk)))
    (hsk : sk ≠ "")
    (hlib : env.requestsLib = true)
    (hpost : env.perplexityPost (.str sk) m msg = .ok resp) :
    (resp.status_code = 200 →
      ∀ body content, resp.jsonBody = .ok body →
        extractChoicesContent body = .ok (.str content) →
        AIClient.get_response ⟨cm, provs⟩ env "Perplexity" m msg
          = .ok (.str content, 1))
    ∧ (resp.status_code ≠ 200 →
        AIClient.get_response ⟨cm, provs⟩ env "Perplexity" m msg
          = .ok (.str ("Error: " ++ toString resp.status_code ++ " - "
              ++ resp.text), 1)) := by
  have htr : pyTruthyOpt (some (.str sk)) = true := by
    simp [pyTruthyOpt, Json.truthy, hsk]
  constructor
  · intro h200 body content hbody hex
    simp [AIClient.get_response, hk, htr, AIClient.perplexity_request,
      hlib, hpost, h200, hbody, hex, AIClient.tryExceptStep]
  · intro hne
    simp [AIClient.get_response, hk, htr, AIClient.perplexity_request,
      hlib, hpost, hne, AIClient.tryExceptStep]

/-- C8, witness: a stubbed 429 response with body
`\x7b"error":"rate limited"\x7d` yields the error string carrying 429 and
that body, after one network invocation. -/
theorem C8_perplexity_adapter_witness :
    AIClient.get_response
        ⟨⟨.obj [("api_keys", .obj [("perplexity", .str "k")])]⟩,
          defaultProviders⟩ env429
        "Perplexity" "llama-3.1-sonar-small-128k-online" "hi"
      = .ok (.str "Error: 429 - \x7b\"error\":\"rate limited\"\x7d", 1) := by
  have h := (C8_perplexity_adapter
    ⟨.obj [("api_keys", .obj [("perplexity", .str "k")])]⟩
    defaultProviders env429 "llama-3.1-sonar-small-128k-online" "hi" "k"
    ⟨429, "\x7b\"error\":\"rate limited\"\x7d",
      .ok (.obj [("error", .str "rate limited")])⟩
    rfl (by decide) rfl rfl).2 (by decide)
  simpa using h

/-- C9 (implicit): `get_response` never consults the provider registry —
its result is identical for any two registries (in particular one whose
provider has `requires_api_key = False`) — and whenever no secret is
stored under the lowercased id (absent or empty), it returns the
missing-key error with zero network invocations, for every provider. -/
theorem C9_requires_flag_never_consulted (cm : ConfigManager)
    (provs1 provs2 : List (String × AIProvider)) (env : Env)
    (p m msg : String) :
    AIClient.get_response ⟨cm, provs1⟩ env p m msg
      = AIClient.get_response ⟨cm, provs2⟩ env p m msg
    ∧ ((cm.get_api_key (pyLower p) = .ok none ∨
        cm.get_api_key (pyLower p) = .ok (some (.str ""))) →
          AIClient.get_response ⟨cm, provs1⟩ env p m msg
            = .ok (.str ("Error: No API key configured for " ++ p), 0)) := by
  refine ⟨rfl, fun h => ?_⟩
  rcases h with h | h <;>
    simp [AIClient.get_response, h, pyTruthyOpt, Json.truthy]

/-- C9, witness: a registry whose only provider sets
`requires_api_key = False` still gets the missing-key error when no
secret is stored. -/
theorem C9_requires_flag_never_consulted_witness :
    AIClient.get_response
        ⟨⟨.obj []⟩, [("NoKey", ⟨"NoKey", ["m1"], false, none⟩)]⟩ env0
        "NoKey" "m1" "hi"
      = .ok (.str "Error: No API key configured for NoKey", 0) :=
  (C9_requires_flag_never_consulted ⟨.obj []⟩
    [("NoKey", ⟨"NoKey", ["m1"], false, none⟩)] defaultProviders env0
    "NoKey" "m1" "hi").2 (Or.inl rfl)

/-- C10 (implicit): adapter selection compares the provider id exactly
against the four registered names while the credential lookup lowercases,
so an id differing from a registered name only in case, even with a
(non-empty) secret configured under its lowercased form, yields the
unsupported-provider error and zero network invocations. -/
theorem C10_adapter_selection_case_sensitive (cm : ConfigManager)
    (provs : List (String × AIProvider)) (env : Env) (p m msg sk : String)
    (hcase : pyLower p = "openai" ∨ pyLower p = "claude" ∨
             pyLower p = "gemini" ∨ pyLower p = "perplexity")
    (h1 : p ≠ "OpenAI") (h2 : p ≠ "Claude") (h3 : p ≠ "Gemini")
    (h4 : p ≠ "Perplexity")
    (hk : cm.get_api_key (pyLower p) = .ok (some (.str sk)))
    (hsk : sk ≠ "") :
    AIClient.get_response ⟨cm, provs⟩ env p m msg
      = .ok (.str ("Error: Unsupported provider " ++ p), 0) := by
  have htr : pyTruthyOpt (some (.str sk)) = true := by
    simp [pyTruthyOpt, Json.truthy, hsk]
  simp [AIClient.get_response, hk, htr, h1, h2, h3, h4,
    AIClient.tryExceptStep]

/-- C10, witness: `"openai"` with a secret stored under `"openai"`. -/
theorem C10_adapter_selection_case_sensitive_witness :
    AIClient.get_response
        ⟨⟨.obj [("api_keys", .obj [("openai", .str "k")])]⟩,
          defaultProviders⟩ env0 "openai" "gpt-4o" "hi"
      = .ok (.str "Error: Unsupported provider openai", 0) :=
  C10_adapter_selection_case_sensitive
    ⟨.obj [("api_keys", .obj [("openai", .str "k")])]⟩ defaultProviders
    env0 "openai" "gpt-4o" "hi" "k" (Or.inl rfl)
    (by decide) (by decide) (by decide) (by decide) rfl (by decide)
